import Mathlib

/-!
Verification development for the bank-statement normalization pipeline
(`bank_statement_transformer/main.py` and `actual_budget_importer/main.py`).

Modelling conventions:
* Python strings are Lean `String`s; all string manipulation is defined over
  the underlying character lists so that every definition evaluates by kernel
  reduction.
* Python `float` values are modelled as exact rationals (`ℚ`); `float(...)`
  parsing is modelled for plain decimal literals (optional sign, digits, one
  optional decimal point), which covers every numeric field of the statement
  formats.  `str(float)` rendering is modelled as exact shortest decimal
  rendering.
* CSV rows are lists of field strings; a line without quoting splits on
  commas, and a blank line yields the empty row, matching `csv.reader` on the
  quote-free inputs these statements contain.
* Python exceptions (`StopIteration`, `ValueError`, `AssertionError`,
  `IndexError`) are modelled with `Except String`.
* `hashlib.sha256(..).hexdigest()` is modelled by a full FIPS 180-4 SHA-256
  implementation over the UTF-8 bytes of the input string.
-/

/-- Calendar date as produced by `datetime.date`. -/
structure PyDate where
  year : Nat
  month : Nat
  day : Nat
deriving DecidableEq, Repr

/-- Whitespace characters removed by Python `str.strip()`. -/
def isPySpace (c : Char) : Bool :=
  c = ' ' ∨ c = '\t' ∨ c = '\n' ∨ c = '\r' ∨ c = '\x0b' ∨ c = '\x0c'

/-- Strip leading and trailing whitespace from a character list. -/
def stripChars (l : List Char) : List Char :=
  ((l.dropWhile isPySpace).reverse.dropWhile isPySpace).reverse

/-- Model of Python `str.strip()`. -/
def pyStrip (s : String) : String :=
  String.mk (stripChars s.data)

/-- Split a character list on a separator character; models Python
`str.split(sep)` for a one-character separator. -/
def lsplit (sep : Char) : List Char → List (List Char)
  | [] => [[]]
  | c :: cs =>
    let r := lsplit sep cs
    if c = sep then [] :: r else (c :: r.headD []) :: r.tail

/-- Model of Python `str.split(sep)` for a one-character separator. -/
def pySplit (sep : Char) (s : String) : List String :=
  (lsplit sep s.data).map String.mk

/-- Is `pat` a prefix of `l`? -/
def isPrefixListOf : List Char → List Char → Bool
  | [], _ => true
  | _ :: _, [] => false
  | p :: ps, c :: cs => p = c && isPrefixListOf ps cs

/-- Model of Python `str.startswith`. -/
def pyStartsWith (s pre : String) : Bool :=
  isPrefixListOf pre.data s.data

/-- Does `l` contain `pat` as a contiguous sublist?  Models Python `pat in s`. -/
def containsSubList (pat : List Char) : List Char → Bool
  | [] => isPrefixListOf pat []
  | c :: cs => isPrefixListOf pat (c :: cs) || containsSubList pat cs

/-- Model of Python `pat in s` for strings. -/
def pyContains (s pat : String) : Bool :=
  containsSubList pat.data s.data

/-- Replace every non-overlapping occurrence of `pat` (left to right) by
`repl`; models Python `str.replace` for non-empty patterns. -/
def replaceSub (pat repl : List Char) : List Char → List Char
  | [] => []
  | c :: cs =>
    if isPrefixListOf pat (c :: cs) ∧ pat ≠ [] then
      repl ++ replaceSub pat repl ((c :: cs).drop pat.length)
    else
      c :: replaceSub pat repl cs
termination_by l => l.length
decreasing_by
  · simp only [List.length_drop, List.length_cons]
    rename_i h
    cases pat with
    | nil => exact absurd rfl h.2
    | cons p ps => simp; omega
  · simp

/-- Model of Python `str.replace`. -/
def pyReplace (s pat repl : String) : String :=
  String.mk (replaceSub pat.data repl.data s.data)

/-- Model of Python `str.lower()` (ASCII letters, which is all the parsers
compare against). -/
def pyLower (s : String) : String :=
  String.mk (s.data.map Char.toLower)

/-- Join character lists with a separator list between them. -/
def intercalateList (sep : List Char) : List (List Char) → List Char
  | [] => []
  | [l] => l
  | l :: ls => l ++ sep ++ intercalateList sep ls

/-- Model of Python line iteration over `io.StringIO`: the physical lines of
the input, without their trailing newline characters. -/
def pyLines (s : String) : List String :=
  if s = "" then []
  else
    let ls := pySplit '\n' s
    if s.data.getLast? = some '\n' then ls.dropLast else ls

/-- Model of `csv.reader` on one quote-free line: a blank line gives the empty
row, any other line splits on commas. -/
def rowOfLine (l : String) : List String :=
  if l = "" then [] else pySplit ',' l

/-- Model of Python `s or d` for strings: `d` when `s` is empty. -/
def strOr (s d : String) : String :=
  if s = "" then d else s

/-- Numeric value of a list of decimal digit characters. -/
def digitsVal (cs : List Char) : Nat :=
  cs.foldl (fun a c => a * 10 + (c.toNat - 48)) 0

/-- Unsigned part of Python `float(...)` on plain decimal literals. -/
def parseUFloat (cs : List Char) : Option ℚ :=
  match lsplit '.' cs with
  | [ics] =>
    if ics ≠ [] ∧ ics.all Char.isDigit then some (digitsVal ics : ℚ) else none
  | [ics, fcs] =>
    if (ics ++ fcs) ≠ [] ∧ ics.all Char.isDigit ∧ fcs.all Char.isDigit then
      some ((digitsVal (ics ++ fcs) : ℚ) / (10 ^ fcs.length : ℚ))
    else none
  | _ => none

/-- Model of Python `float(...)` on the (already stripped) decimal strings the
parsers feed it; a malformed string yields `none` (Python: `ValueError`). -/
def parseFloat (s : String) : Option ℚ :=
  match s.data with
  | '-' :: rest => (parseUFloat rest).map Neg.neg
  | '+' :: rest => parseUFloat rest
  | cs => parseUFloat cs

/-- Gregorian leap year, as validated by `datetime`. -/
def isLeap (y : Nat) : Bool :=
  y % 4 = 0 && (y % 100 ≠ 0 || y % 400 = 0)

/-- Number of days in a month, as validated by `datetime`. -/
def daysInMonth (y m : Nat) : Nat :=
  if m = 2 then (if isLeap y then 29 else 28)
  else if m = 4 ∨ m = 6 ∨ m = 9 ∨ m = 11 then 30
  else 31

/-- Model of `datetime.strptime(s, "%d/%m/%y")` (when `yearWidth = 2`) and
`datetime.strptime(s, "%d/%m/%Y")` (when `yearWidth = 4`): day and month are
one or two digits, the year is exactly `yearWidth` digits, the two-digit year
pivots at 69 (00-68 ↦ 2000s, 69-99 ↦ 1900s), and the calendar date must be
valid; failure (Python `ValueError`) is `none`. -/
def parseDateSlash (yearWidth : Nat) (s : String) : Option PyDate :=
  match lsplit '/' s.data with
  | [dcs, mcs, ycs] =>
    if dcs.all Char.isDigit ∧ mcs.all Char.isDigit ∧ ycs.all Char.isDigit ∧
        1 ≤ dcs.length ∧ dcs.length ≤ 2 ∧ 1 ≤ mcs.length ∧ mcs.length ≤ 2 ∧
        ycs.length = yearWidth then
      let d := digitsVal dcs
      let m := digitsVal mcs
      let yraw := digitsVal ycs
      let y := if yearWidth = 2 then (if yraw ≤ 68 then 2000 + yraw else 1900 + yraw)
               else yraw
      if 1 ≤ d ∧ 1 ≤ m ∧ m ≤ 12 ∧ 1 ≤ y ∧ d ≤ daysInMonth y m then
        some ⟨y, m, d⟩
      else none
    else none
  | _ => none

/-- Two-digit numeric value. -/
def two2 (a b : Char) : Nat :=
  (a.toNat - 48) * 10 + (b.toNat - 48)

/-- `%d` matching a two-digit day (regex `3[01]|[12]\d|0[1-9]`). -/
def dayTok2 : List Char → Option (Nat × List Char)
  | a :: b :: rest =>
    if a.isDigit && b.isDigit then
      let v := two2 a b
      if 1 ≤ v ∧ v ≤ 31 then some (v, rest) else none
    else none
  | _ => none

/-- `%d` matching a one-digit day (regex `[1-9]`). -/
def dayTok1 : List Char → Option (Nat × List Char)
  | a :: rest =>
    if a.isDigit && a ≠ '0' then some (a.toNat - 48, rest) else none
  | _ => none

/-- `%m` matching a two-digit month (regex `1[0-2]|0[1-9]`). -/
def monTok2 : List Char → Option (Nat × List Char)
  | a :: b :: rest =>
    if a.isDigit && b.isDigit then
      let v := two2 a b
      if 1 ≤ v ∧ v ≤ 12 then some (v, rest) else none
    else none
  | _ => none

/-- `%m` matching a one-digit month (regex `[1-9]`). -/
def monTok1 : List Char → Option (Nat × List Char)
  | a :: rest =>
    if a.isDigit && a ≠ '0' then some (a.toNat - 48, rest) else none
  | _ => none

/-- `%Y`: exactly four digits. -/
def year4 : List Char → Option (Nat × List Char)
  | a :: b :: c :: d :: rest =>
    if a.isDigit && b.isDigit && c.isDigit && d.isDigit then
      some (digitsVal [a, b, c, d], rest)
    else none
  | _ => none

/-- The first `%d%m%Y` regex match of a character list, trying the
alternatives in Python's backtracking order (two-digit day before one-digit
day, two-digit month before one-digit month). -/
def compactMatch (s : List Char) : Option (Nat × Nat × Nat × List Char) :=
  (do
    let (d, r1) ← dayTok2 s
    let (m, r2) ← monTok2 r1
    let (y, r3) ← year4 r2
    pure (d, m, y, r3)) <|>
  (do
    let (d, r1) ← dayTok2 s
    let (m, r2) ← monTok1 r1
    let (y, r3) ← year4 r2
    pure (d, m, y, r3)) <|>
  (do
    let (d, r1) ← dayTok1 s
    let (m, r2) ← monTok2 r1
    let (y, r3) ← year4 r2
    pure (d, m, y, r3)) <|>
  (do
    let (d, r1) ← dayTok1 s
    let (m, r2) ← monTok1 r1
    let (y, r3) ← year4 r2
    pure (d, m, y, r3))

/-- Model of `datetime.strptime(s, "%d%m%Y")`: the first regex match must
consume the whole string and give a valid calendar date. -/
def parseDateCompact (s : String) : Option PyDate :=
  match compactMatch s.data with
  | none => none
  | some (d, m, y, rest) =>
    if rest = [] ∧ 1 ≤ y ∧ d ≤ daysInMonth y m then some ⟨y, m, d⟩ else none

/-- Decimal rendering of a `Nat`, zero-padded on the left to width `w`. -/
def padNum (w n : Nat) : String :=
  let s := toString n
  String.mk (List.replicate (w - s.length) '0' ++ s.data)

/-- Model of `datetime.date.isoformat()`. -/
def isoformat (d : PyDate) : String :=
  padNum 4 d.year ++ "-" ++ padNum 2 d.month ++ "-" ++ padNum 2 d.day

/-- Rendering of a nonnegative rational with a power-of-ten denominator, in
Python `str(float)` style: integers get a trailing `.0`, other values get
their exact shortest decimal expansion. -/
def ratReprPos (q : ℚ) : String :=
  if q.den = 1 then toString q.num.toNat ++ ".0"
  else
    match (List.range 31).find? (fun k => 10 ^ k % q.den = 0) with
    | some k =>
      let n := q.num.toNat * 10 ^ k / q.den
      toString (n / 10 ^ k) ++ "." ++ padNum k (n % 10 ^ k)
    | none => toString q.num.toNat ++ "/" ++ toString q.den

/-- Model of Python `str(float)` (f-string interpolation of an amount), for
the exact-decimal rationals arising from the statement amounts. -/
def ratRepr (q : ℚ) : String :=
  if q < 0 then "-" ++ ratReprPos (-q) else ratReprPos q

/-- UTF-8 encoding of one character, as a list of byte values. -/
def utf8Bytes (c : Char) : List Nat :=
  let n := c.toNat
  if n < 0x80 then [n]
  else if n < 0x800 then
    [0xC0 ||| (n >>> 6), 0x80 ||| (n &&& 0x3F)]
  else if n < 0x10000 then
    [0xE0 ||| (n >>> 12), 0x80 ||| ((n >>> 6) &&& 0x3F), 0x80 ||| (n &&& 0x3F)]
  else
    [0xF0 ||| (n >>> 18), 0x80 ||| ((n >>> 12) &&& 0x3F),
     0x80 ||| ((n >>> 6) &&& 0x3F), 0x80 ||| (n &&& 0x3F)]

/-- UTF-8 bytes of a string (`str.encode()`). -/
def strBytes (s : String) : List Nat :=
  (s.data.map utf8Bytes).join

/-- Truncation to 32 bits. -/
def mask32 (n : Nat) : Nat :=
  n % 4294967296

/-- 32-bit right rotation. -/
def rotr32 (x n : Nat) : Nat :=
  mask32 ((x >>> n) ||| (x <<< (32 - n)))

/-- SHA-256 small sigma 0. -/
def smallSig0 (x : Nat) : Nat :=
  rotr32 x 7 ^^^ rotr32 x 18 ^^^ (x >>> 3)

/-- SHA-256 small sigma 1. -/
def smallSig1 (x : Nat) : Nat :=
  rotr32 x 17 ^^^ rotr32 x 19 ^^^ (x >>> 10)

/-- SHA-256 big sigma 0. -/
def bigSig0 (x : Nat) : Nat :=
  rotr32 x 2 ^^^ rotr32 x 13 ^^^ rotr32 x 22

/-- SHA-256 big sigma 1. -/
def bigSig1 (x : Nat) : Nat :=
  rotr32 x 6 ^^^ rotr32 x 11 ^^^ rotr32 x 25

/-- The 64 SHA-256 round constants (FIPS 180-4). -/
def shaK : List Nat :=
  [1116352408, 1899447441, 3049323471, 3921009573,
   961987163, 1508970993, 2453635748, 2870763221,
   3624381080, 310598401, 607225278, 1426881987,
   1925078388, 2162078206, 2614888103, 3248222580,
   3835390401, 4022224774, 264347078, 604807628,
   770255983, 1249150122, 1555081692, 1996064986,
   2554220882, 2821834349, 2952996808, 3210313671,
   3336571891, 3584528711, 113926993, 338241895,
   666307205, 773529912, 1294757372, 1396182291,
   1695183700, 1986661051, 2177026350, 2456956037,
   2730485921, 2820302411, 3259730800, 3345764771,
   3516065817, 3600352804, 4094571909, 275423344,
   430227734, 506948616, 659060556, 883997877,
   958139571, 1322822218, 1537002063, 1747873779,
   1955562222, 2024104815, 2227730452, 2361852424,
   2428436474, 2756734187, 3204031479, 3329325298]

/-- The eight SHA-256 working registers. -/
structure Hash8 where
  a : Nat
  b : Nat
  c : Nat
  d : Nat
  e : Nat
  f : Nat
  g : Nat
  h : Nat
deriving Repr

/-- The SHA-256 initial hash value. -/
def shaInitH : Hash8 :=
  ⟨1779033703, 3144134277, 1013904242, 2773480762,
   1359893119, 2600822924, 528734635, 1541459225⟩

/-- One SHA-256 compression round, consuming a `(K, W)` pair. -/
def shaRound (s : Hash8) (kw : Nat × Nat) : Hash8 :=
  let ch := (s.e &&& s.f) ^^^ ((s.e ^^^ 0xFFFFFFFF) &&& s.g)
  let t1 := mask32 (s.h + bigSig1 s.e + ch + kw.1 + kw.2)
  let mj := (s.a &&& s.b) ^^^ (s.a &&& s.c) ^^^ (s.b &&& s.c)
  let t2 := mask32 (bigSig0 s.a + mj)
  ⟨mask32 (t1 + t2), s.a, s.b, s.c, mask32 (s.d + t1), s.e, s.f, s.g⟩

/-- Message-schedule expansion of the 16 block words to 64 words. -/
def shaSchedule (w0 : List Nat) : List Nat :=
  ((List.range 48).foldl
    (fun (a : Array Nat) i =>
      a.push (mask32 (a.getD i 0 + smallSig0 (a.getD (i + 1) 0) +
        a.getD (i + 9) 0 + smallSig1 (a.getD (i + 14) 0))))
    w0.toArray).toList

/-- SHA-256 compression of one 64-byte block into the running state. -/
def compressBlock (st : Hash8) (block : List Nat) : Hash8 :=
  let w0 := (List.range 16).map (fun i =>
    (block.getD (4 * i) 0 <<< 24) ||| (block.getD (4 * i + 1) 0 <<< 16) |||
    (block.getD (4 * i + 2) 0 <<< 8) ||| block.getD (4 * i + 3) 0)
  let fin := (shaK.zip (shaSchedule w0)).foldl shaRound st
  ⟨mask32 (st.a + fin.a), mask32 (st.b + fin.b), mask32 (st.c + fin.c),
   mask32 (st.d + fin.d), mask32 (st.e + fin.e), mask32 (st.f + fin.f),
   mask32 (st.g + fin.g), mask32 (st.h + fin.h)⟩

/-- Big-endian 8-byte encoding of the message bit length. -/
def be64Bytes (n : Nat) : List Nat :=
  [(n >>> 56) &&& 255, (n >>> 48) &&& 255, (n >>> 40) &&& 255,
   (n >>> 32) &&& 255, (n >>> 24) &&& 255, (n >>> 16) &&& 255,
   (n >>> 8) &&& 255, n &&& 255]

/-- SHA-256 message padding to a multiple of 64 bytes. -/
def shaPad (msg : List Nat) : List Nat :=
  msg ++ 0x80 :: List.replicate ((119 - msg.length % 64) % 64) 0 ++
    be64Bytes (8 * msg.length)

/-- Split a byte list into 64-byte chunks. -/
def chunks64 (l : List Nat) : List (List Nat) :=
  if l = [] then [] else l.take 64 :: chunks64 (l.drop 64)
termination_by l.length
decreasing_by
  rename_i h
  have : 0 < l.length := List.length_pos.mpr h
  simp [List.length_drop]
  omega

/-- The eight output words of a final hash state. -/
def digestWords (st : Hash8) : List Nat :=
  [st.a, st.b, st.c, st.d, st.e, st.f, st.g, st.h]

/-- SHA-256 digest of a byte list, as eight 32-bit words. -/
def sha256Words (msg : List Nat) : List Nat :=
  digestWords ((chunks64 (shaPad msg)).foldl compressBlock shaInitH)

/-- Lowercase hexadecimal digit character for `n % 16`: code point 48 + m for
digits 0-9 and 87 + m for the letters a-f. -/
def hexChar (n : Nat) : Char :=
  let m := n % 16
  if m < 10 then Char.ofNat (48 + m) else Char.ofNat (87 + m)

/-- Lowercase hexadecimal rendering of `n`, exactly `w` digits wide. -/
def hexw : Nat → Nat → List Char
  | 0, _ => []
  | w + 1, n => hexw w (n / 16) ++ [hexChar n]

/-- Model of `hashlib.sha256(s.encode()).hexdigest()`. -/
def sha256hex (s : String) : String :=
  String.mk (((sha256Words (strBytes s)).map (hexw 8)).join)

/-- The canonical transaction record produced by every parser
(`@dataclass Transaction` in the source). -/
structure Transaction where
  amount : ℚ
  narration : String
  ref_id : String
  date : PyDate
  closing_balance : ℚ
deriving DecidableEq, Repr

/-- Outcome of processing one format-A data row: a transaction, a skip with a
warning (`continue` after `logging.warning`), or an uncaught exception. -/
inductive RowResult where
  | tx (t : Transaction)
  | skip
  | err (e : String)
deriving DecidableEq, Repr

/-- Is an `Except` result an error? -/
def isErr : Except String α → Bool
  | .error _ => true
  | .ok _ => false

instance [DecidableEq ε] [DecidableEq α] : DecidableEq (Except ε α) := fun x y =>
  match x, y with
  | .ok a, .ok b =>
    if h : a = b then isTrue (by rw [h]) else isFalse (by intro hc; cases hc; exact h rfl)
  | .error a, .error b =>
    if h : a = b then isTrue (by rw [h]) else isFalse (by intro hc; cases hc; exact h rfl)
  | .ok _, .error _ => isFalse (by intro hc; cases hc)
  | .error _, .ok _ => isFalse (by intro hc; cases hc)

/-- `extract_payee_from_hdfc_bank_statement_narration` from
`bank_statement_transformer/main.py`; `none` models Python `None`. -/
def extract_payee_from_hdfc_bank_statement_narration (narration : String) :
    Option String :=
  let nl := pyLower narration
  if pyStartsWith nl "upi-" then
    let parts := pySplit '-' narration
    if 1 < parts.length then some (pyStrip (parts.getD 1 "")) else none
  else if pyStartsWith nl "neft" || pyStartsWith nl "rtgs" then
    let parts := pySplit '-' narration
    if 2 < parts.length then some (pyStrip (parts.getD 2 "")) else none
  else none

/-- `row = [el for el in row if el.strip()]`: discard blank fields. -/
def filterBlank (row : List String) : List String :=
  row.filter (fun el => pyStrip el ≠ "")

/-- `' '.join(part.strip() for part in parts)`: the merged narration. -/
def mergeNarr (parts : List String) : String :=
  String.mk (intercalateList [' '] (parts.map (fun p => stripChars p.data)))

/-- The comma-in-narration merge of `transform_hdfc_csv_to_transactions`:
a row with more fields than the header width has the surplus merged into the
narration position. -/
def mergeRowA (numCols : Nat) (row : List String) : List String :=
  if numCols < row.length then
    let extra := row.length - numCols
    row.headD "" :: mergeNarr ((row.drop 1).take (1 + extra)) :: row.drop (2 + extra)
  else row

/-- Blank-field filtering followed by the comma merge: the row shape that the
format-A field destructuring sees. -/
def mergedRowA (numCols : Nat) (row : List String) : List String :=
  mergeRowA numCols (filterBlank row)

/-- Per-row body of `transform_hdfc_csv_to_transactions`
(`bank_statement_transformer/main.py`, lines 141-190). -/
def parseRowA_BST (numCols : Nat) (rawRow : List String) : RowResult :=
  if filterBlank rawRow = [] then .skip
  else
    match mergedRowA numCols rawRow with
    | [date_str, narration, _value_dt, debit_amt, credit_amt, ref_id, closing_balance] =>
      match parseDateSlash 2 (pyStrip date_str) with
      | none => .err "ValueError: strptime"
      | some d =>
        match parseFloat (strOr (pyStrip credit_amt) "0"),
              parseFloat (strOr (pyStrip debit_amt) "0") with
        | some qc, some qd =>
          let amount := qc - qd
          let cleaned0 := pyStrip ref_id
          let cleaned :=
            if cleaned0 = "0" ∨ ∀ c ∈ cleaned0.data, c = '0' then
              sha256hex (isoformat d ++ ":" ++ ratRepr amount ++ ":" ++ pyStrip narration)
            else cleaned0
          if cleaned.length ≤ 3 then .err "AssertionError: Invalid ref_id"
          else
            match parseFloat (pyStrip closing_balance) with
            | none => .err "ValueError: float"
            | some qcb => .tx ⟨amount, pyStrip narration, cleaned, d, qcb⟩
        | _, _ => .err "ValueError: float"
    | row => if row.length < 7 then .skip else .err "ValueError: too many values to unpack"

/-- The loop of `transform_hdfc_csv_to_transactions` over all data rows:
transactions in order plus the number of warnings; an uncaught exception
aborts the whole invocation. -/
def parseRowsA (pr : List String → RowResult) :
    List (List String) → Except String (List Transaction × Nat)
  | [] => .ok ([], 0)
  | r :: rs =>
    match pr r with
    | .err e => .error e
    | .skip => (parseRowsA pr rs).map (fun p => (p.1, p.2 + 1))
    | .tx t => (parseRowsA pr rs).map (fun p => (t :: p.1, p.2))

/-- `len([col for col in first_line.split(",") if col.strip()])`. -/
def countCols (headerLine : String) : Nat :=
  ((pySplit ',' headerLine).filter (fun col => pyStrip col ≠ "")).length

/-- `transform_hdfc_csv_to_transactions` from
`bank_statement_transformer/main.py`: unconditionally consumes a presumed
leading blank line and then the header line, then parses all remaining lines
as data rows. -/
def transform_hdfc_csv_to_transactions (contents : String) :
    Except String (List Transaction × Nat) :=
  match pyLines contents with
  | _skipped :: headerLine :: rest =>
    parseRowsA (parseRowA_BST (countCols (pyStrip headerLine))) (rest.map rowOfLine)
  | _ => .error "StopIteration"

namespace ActualBudgetImporter

/-- Per-row body of `transform_hdfc_csv_to_transactions` from
`actual_budget_importer/main.py`.  It differs from the
`bank_statement_transformer` variant in the reference-id synthesis: only the
exact value `"0"` triggers it, and the hash input omits the amount. -/
def parseRowA (numCols : Nat) (rawRow : List String) : RowResult :=
  if filterBlank rawRow = [] then .skip
  else
    match mergedRowA numCols rawRow with
    | [date_str, narration, _value_dt, debit_amt, credit_amt, ref_id, closing_balance] =>
      match parseDateSlash 2 (pyStrip date_str) with
      | none => .err "ValueError: strptime"
      | some d =>
        match parseFloat (strOr (pyStrip credit_amt) "0"),
              parseFloat (strOr (pyStrip debit_amt) "0") with
        | some qc, some qd =>
          let amount := qc - qd
          let cleaned0 := pyStrip ref_id
          let cleaned :=
            if cleaned0 = "0" then
              sha256hex (isoformat d ++ ":" ++ pyStrip narration)
            else cleaned0
          if cleaned.length ≤ 3 then .err "AssertionError: Invalid ref_id"
          else
            match parseFloat (pyStrip closing_balance) with
            | none => .err "ValueError: float"
            | some qcb => .tx ⟨amount, pyStrip narration, cleaned, d, qcb⟩
        | _, _ => .err "ValueError: float"
    | row => if row.length < 7 then .skip else .err "ValueError: too many values to unpack"

/-- `transform_hdfc_csv_to_transactions` from `actual_budget_importer/main.py`:
reads the header width from the first line, rewinds, skips the first line, and
parses all remaining lines as data rows (no blank-line handling). -/
def transform_hdfc_csv_to_transactions (contents : String) :
    Except String (List Transaction × Nat) :=
  match pyLines contents with
  | headerLine :: rest =>
    parseRowsA (parseRowA (countCols (pyStrip headerLine))) (rest.map rowOfLine)
  | _ => .error "StopIteration"

end ActualBudgetImporter

/-- The section-marker scan of
`transform_icici_credit_card_statement_csv_to_transactions`: skip rows until
one whose second field, trimmed, is `"Transaction Details"`, then skip one
further header row; a nonempty row with fewer than two fields raises
`IndexError` (`row[1]`); a missing marker, or input ending at the marker row,
leaves no data rows. -/
def findMarkerB : List (List String) → Except String (List (List String))
  | [] => .ok []
  | r :: rs =>
    if r = [] then findMarkerB rs
    else if r.length < 2 then .error "IndexError: list index out of range"
    else if pyStrip (r.getD 1 "") = "Transaction Details" then .ok rs.tail
    else findMarkerB rs

/-- Per-row body of the format-B data loop
(`bank_statement_transformer/main.py`, lines 90-123).  `ok none` is a silent
`continue`; `.error` is an uncaught exception. -/
def parseRowIcici (row : List String) : Except String (Option Transaction) :=
  if row = [] ∨ row.length < 9 ∨ row.getD 2 "" = "" then .ok none
  else
    let date_str := pyReplace (pyStrip (row.getD 2 "")) "," ""
    match parseDateCompact date_str with
    | none => .error "ValueError: strptime"
    | some d =>
      let description := pyStrip (row.getD 3 "")
      let amount_str := pyStrip (row.getD 6 "")
      if amount_str = "" then .ok none
      else
        let cleanAmt := pyReplace (pyReplace (pyReplace amount_str " Dr." "") " Cr." "") "," ""
        match parseFloat cleanAmt with
        | none => .error "ValueError: float"
        | some a =>
          let amount := if pyContains (row.getD 6 "") "Dr." then -a else a
          .ok (some ⟨amount, description, pyStrip (row.getD 8 ""), d, 0⟩)

/-- The format-B data loop over all remaining rows. -/
def parseRowsB : List (List String) → Except String (List Transaction)
  | [] => .ok []
  | r :: rs =>
    match parseRowIcici r with
    | .error e => .error e
    | .ok none => parseRowsB rs
    | .ok (some t) => (parseRowsB rs).map (t :: ·)

/-- `transform_icici_credit_card_statement_csv_to_transactions` from
`bank_statement_transformer/main.py`. -/
def transform_icici_credit_card_statement_csv_to_transactions
    (contents : String) : Except String (List Transaction) :=
  match findMarkerB ((pyLines contents).map rowOfLine) with
  | .error e => .error e
  | .ok dataRows => parseRowsB dataRows

/-- `' '.join(str(cell) for cell in table.df.iloc[0])`. -/
def joinCells (row : List String) : String :=
  String.mk (intercalateList [' '] (row.map String.data))

/-- Does an extracted table qualify as a "Domestic Transactions" table that
contributes rows: more than one row, marker text in the joined first row, and
more than four rows (the first four are skipped)? -/
def qualifiesC (t : List (List String)) : Bool :=
  decide (1 < t.length) && pyContains (joinCells (t.headD [])) "Domestic Transactions" &&
    decide (4 < t.length)

/-- Keep the first occurrence of each row, in order
(`DataFrame.drop_duplicates`). -/
def dedupFirst : List (List String) → List (List String)
  | [] => []
  | r :: rs => r :: dedupFirst (rs.filter (fun x => x ≠ r))
termination_by l => l.length
decreasing_by
  simp only [List.length_cons]
  exact Nat.lt_succ_of_le (List.length_filter_le _ _)

/-- The amount cell of a format-C row: index 3 when more than three cells are
present, else index 2; stripped, with thousands separators removed. -/
def amountCellC (row : List String) : String :=
  if 3 < row.length then pyReplace (pyStrip (row.getD 3 "")) "," ""
  else pyReplace (pyStrip (row.getD 2 "")) "," ""

/-- Per-row body of `transform_hdfc_credit_card_statement_to_transactions`
(`bank_statement_transformer/main.py`, lines 269-305).  Rows with fewer than
three cells are skipped silently; a `Cr` marker anywhere in the amount cell
makes the amount a credit (positive), otherwise it is negated; the reference
id is always synthesized. -/
def parseRowC (row : List String) : Except String (Option Transaction) :=
  if row.length < 3 then .ok none
  else
    let description := pyStrip (row.getD 1 "")
    let amount_str := amountCellC row
    let date_part := (pySplit ' ' (pyStrip (row.getD 0 ""))).headD ""
    match parseDateSlash 4 date_part with
    | none => .error "ValueError: strptime"
    | some d =>
      let is_credit := pyContains amount_str "Cr"
      match parseFloat (pyStrip (pyReplace amount_str "Cr" "")) with
      | none => .error "ValueError: float"
      | some m =>
        let amount := if is_credit then m else -m
        .ok (some ⟨amount, description,
          sha256hex (isoformat d ++ ":" ++ ratRepr amount ++ ":" ++ description),
          d, 0⟩)

/-- The format-C data loop over the combined rows. -/
def parseRowsC : List (List String) → Except String (List Transaction)
  | [] => .ok []
  | r :: rs =>
    match parseRowC r with
    | .error e => .error e
    | .ok none => parseRowsC rs
    | .ok (some t) => (parseRowsC rs).map (t :: ·)

/-- `transform_hdfc_credit_card_statement_to_transactions` from
`bank_statement_transformer/main.py`, modelled from the point where the
external `camelot` calls have produced the lattice-mode and stream-mode
tables (each a matrix of cell strings).  Qualifying tables lose their first
four rows, are concatenated, and are deduplicated; the returned flag is
`true` exactly when the "no tables found" warning is emitted. -/
def transform_hdfc_credit_card_statement_to_transactions
    (tablesLattice tablesStream : List (List (List String))) :
    Except String (List Transaction × Bool) :=
  let dfs := (tablesLattice.filter qualifiesC).map (List.drop 4) ++
    (tablesStream.filter qualifiesC).map (List.drop 4)
  if dfs = [] then .ok ([], true)
  else
    let combined := dedupFirst dfs.join
    if 1 < combined.length then
      (parseRowsC combined).map (fun ts => (ts, false))
    else .ok ([], false)

/-- Is `c` a lowercase hexadecimal digit character? -/
def isHexDigitChar (c : Char) : Bool :=
  ('0' ≤ c && c ≤ '9') || ('a' ≤ c && c ≤ 'f')

theorem hexw_length (w : Nat) : ∀ n, (hexw w n).length = w := by
  induction w with
  | zero => intro n; rfl
  | succ w ih => intro n; simp [hexw, ih]

theorem sha256hex_length (s : String) : (sha256hex s).length = 64 := by
  simp [sha256hex, String.length, sha256Words, digestWords, hexw_length]

theorem hexChar_isHex (n : Nat) : isHexDigitChar (hexChar n) = true := by
  have haux : ∀ m, m < 16 →
      isHexDigitChar (if m < 10 then Char.ofNat (48 + m) else Char.ofNat (87 + m)) = true := by
    decide
  exact haux _ (Nat.mod_lt _ (by norm_num))

theorem hexw_isHex : ∀ w n c, c ∈ hexw w n → isHexDigitChar c = true := by
  intro w
  induction w with
  | zero => intro n c hc; simp [hexw] at hc
  | succ w ih =>
    intro n c hc
    simp only [hexw, List.mem_append, List.mem_singleton] at hc
    rcases hc with h | h
    · exact ih _ _ h
    · rw [h]; exact hexChar_isHex n

theorem sha256hex_isHex (s : String) : ∀ c ∈ (sha256hex s).data, isHexDigitChar c = true := by
  intro c hc
  simp only [sha256hex, List.mem_join, List.mem_map] at hc
  obtain ⟨l, ⟨n, _, rfl⟩, hcl⟩ := hc
  exact hexw_isHex 8 n c hcl

theorem mergeRowA_nil (N : Nat) : mergeRowA N [] = [] := by
  simp [mergeRowA]

/-- Claim C1: for the format-A parser, whenever a row's trimmed reference
field equals `"0"` or consists entirely of `'0'`, the returned transaction's
reference id is the SHA-256 hex digest of
`"<ISO date>:<signed amount>:<trimmed narration>"`; it is exactly 64
hexadecimal characters long, parsing the identical row twice yields the
identical reference id, and the post-synthesis `length > 3` integrity check
never fails for a synthesized id. -/
theorem claim1_zero_ref_synthesis
    (N : Nat) (row : List String)
    (ds na v da ca ri cb : String) (d : PyDate) (qc qd qcb : ℚ)
    (hm : mergedRowA N row = [ds, na, v, da, ca, ri, cb])
    (hz : pyStrip ri = "0" ∨ ∀ c ∈ (pyStrip ri).data, c = '0')
    (hd : parseDateSlash 2 (pyStrip ds) = some d)
    (hc : parseFloat (strOr (pyStrip ca) "0") = some qc)
    (hdb : parseFloat (strOr (pyStrip da) "0") = some qd)
    (hcb : parseFloat (pyStrip cb) = some qcb) :
    parseRowA_BST N row =
      .tx ⟨qc - qd, pyStrip na,
        sha256hex (isoformat d ++ ":" ++ ratRepr (qc - qd) ++ ":" ++ pyStrip na), d, qcb⟩
    ∧ (sha256hex (isoformat d ++ ":" ++ ratRepr (qc - qd) ++ ":" ++ pyStrip na)).length = 64
    ∧ (∀ c ∈ (sha256hex (isoformat d ++ ":" ++ ratRepr (qc - qd) ++ ":" ++ pyStrip na)).data,
        isHexDigitChar c = true)
    ∧ 3 < (sha256hex (isoformat d ++ ":" ++ ratRepr (qc - qd) ++ ":" ++ pyStrip na)).length
    ∧ (∀ row2, row2 = row → parseRowA_BST N row2 = parseRowA_BST N row) := by
  have hne : filterBlank row ≠ [] := by
    intro h
    rw [mergedRowA, h, mergeRowA_nil] at hm
    exact absurd hm (by simp)
  refine ⟨?_, sha256hex_length _, sha256hex_isHex _, ?_, fun row2 h2 => by rw [h2]⟩
  · unfold parseRowA_BST
    rw [if_neg hne, hm]
    dsimp only
    rw [hd]
    dsimp only
    rw [hc, hdb]
    dsimp only
    rw [if_pos hz]
    rw [if_neg (by rw [sha256hex_length]; omega)]
    rw [hcb]
  · rw [sha256hex_length]; omega

/-- Concrete row exercising the zero-reference synthesis path. -/
def c1row : List String := ["01/10/24", "SHOP", "01/10/24", "50", "100", "0", "500"]

theorem claim1_zero_ref_synthesis_witness :
    parseRowA_BST 7 c1row =
      .tx ⟨(100 : ℚ) - 50, pyStrip "SHOP",
        sha256hex (isoformat ⟨2024, 10, 1⟩ ++ ":" ++ ratRepr ((100 : ℚ) - 50) ++ ":" ++
          pyStrip "SHOP"), ⟨2024, 10, 1⟩, 500⟩
    ∧ (sha256hex (isoformat ⟨2024, 10, 1⟩ ++ ":" ++ ratRepr ((100 : ℚ) - 50) ++ ":" ++
        pyStrip "SHOP")).length = 64
    ∧ (∀ c ∈ (sha256hex (isoformat ⟨2024, 10, 1⟩ ++ ":" ++ ratRepr ((100 : ℚ) - 50) ++ ":" ++
        pyStrip "SHOP")).data, isHexDigitChar c = true)
    ∧ 3 < (sha256hex (isoformat ⟨2024, 10, 1⟩ ++ ":" ++ ratRepr ((100 : ℚ) - 50) ++ ":" ++
        pyStrip "SHOP")).length
    ∧ (∀ row2, row2 = c1row → parseRowA_BST 7 row2 = parseRowA_BST 7 c1row) :=
  claim1_zero_ref_synthesis 7 c1row "01/10/24" "SHOP" "01/10/24" "50" "100" "0" "500"
    ⟨2024, 10, 1⟩ 100 50 500 (by decide) (Or.inl (by decide)) (by decide) (by decide)
    (by decide) (by decide)

/-- The spec's sample format-A input: header row with no preceding blank
line, then one data row. -/
def sampleA : String :=
  "Date,Narration,Value Dat,Debit Amount,Credit Amount,Chq/Ref Number,Closing Balance\n01/10/24,ACH C- NATIONAL HIGHWAYS AU-1320825,01/10/24,0,15296,9053114532,51807.2"

/-- The transaction the spec expects from `sampleA`. -/
def sampleTxA : Transaction :=
  ⟨15296, "ACH C- NATIONAL HIGHWAYS AU-1320825", "9053114532", ⟨2024, 10, 1⟩, 259036 / 5⟩

/-- Claim C2 counterexample: `bank_statement_transformer`'s format-A parser on
the spec's two-line sample (no leading blank line) returns zero transactions,
not one — the first `next()` consumes the header and the data row is consumed
as the header. -/
theorem claim2_sample_cex :
    transform_hdfc_csv_to_transactions sampleA = .ok ([], 0) := by
  decide

/-- Claim C2 amended: the `actual_budget_importer` variant of the format-A
parser returns exactly the expected transaction on the two-line sample, and
the `bank_statement_transformer` variant returns it only when a leading blank
line is present (its first line is skipped unconditionally, so the blank line
is required, not optional, and is never detected). -/
theorem claim2_sample_amended :
    ActualBudgetImporter.transform_hdfc_csv_to_transactions sampleA = .ok ([sampleTxA], 0)
    ∧ transform_hdfc_csv_to_transactions ("\n" ++ sampleA) = .ok ([sampleTxA], 0) := by
  exact ⟨by with_unfolding_all rfl, by with_unfolding_all rfl⟩

/-- Claim C3: for every format-A data row that produces a transaction, with
credit-amount field `c` and debit-amount field `d`, the transaction's amount
equals `c - d`, where a blank credit or debit field is treated as `0`. -/
theorem claim3_sign_convention
    (N : Nat) (row : List String) (t : Transaction)
    (ds na v da ca ri cb : String) (qc qd : ℚ)
    (hm : mergedRowA N row = [ds, na, v, da, ca, ri, cb])
    (ht : parseRowA_BST N row = .tx t)
    (hc : parseFloat (strOr (pyStrip ca) "0") = some qc)
    (hdb : parseFloat (strOr (pyStrip da) "0") = some qd) :
    t.amount = qc - qd ∧ (pyStrip ca = "" → qc = 0) ∧ (pyStrip da = "" → qd = 0) := by
  refine ⟨?_, ?_, ?_⟩
  · unfold parseRowA_BST at ht
    by_cases hne : filterBlank row = []
    · rw [if_pos hne] at ht; exact RowResult.noConfusion ht
    · rw [if_neg hne, hm] at ht
      dsimp only at ht
      cases hdd : parseDateSlash 2 (pyStrip ds) with
      | none => rw [hdd] at ht; exact RowResult.noConfusion ht
      | some d =>
        rw [hdd, hc, hdb] at ht
        dsimp only at ht
        repeat' split at ht
        all_goals
          first
            | exact RowResult.noConfusion ht
            | (cases ht; rfl)
  · intro h
    rw [h] at hc
    have h0 : parseFloat (strOr "" "0") = some 0 := by decide
    rw [h0] at hc
    exact (Option.some_injective _ hc).symm
  · intro h
    rw [h] at hdb
    have h0 : parseFloat (strOr "" "0") = some 0 := by decide
    rw [h0] at hdb
    exact (Option.some_injective _ hdb).symm

/-- Concrete row for the C3 witness: credit 100, debit 50, amount 50. -/
def c3row : List String := ["01/10/24", "SHOP", "01/10/24", "50", "100", "ABCD", "500"]

theorem claim3_sign_convention_witness :
    (⟨(50 : ℚ), "SHOP", "ABCD", ⟨2024, 10, 1⟩, 500⟩ : Transaction).amount = (100 : ℚ) - 50
    ∧ (pyStrip "100" = "" → (100 : ℚ) = 0)
    ∧ (pyStrip "50" = "" → (50 : ℚ) = 0) :=
  claim3_sign_convention 7 c3row ⟨50, "SHOP", "ABCD", ⟨2024, 10, 1⟩, 500⟩
    "01/10/24" "SHOP" "01/10/24" "50" "100" "ABCD" "500" 100 50
    (by decide) (by with_unfolding_all rfl) (by decide) (by decide)

/-- An 8-token row whose narration was split by an embedded comma. -/
def c4rowSplit : List String :=
  ["01/10/24", "AB", "CD", "01/10/24", "10", "20", "REF1", "100"]

/-- The corresponding row whose narration is the single comma-containing
token. -/
def c4rowSingle : List String :=
  ["01/10/24", "AB,CD", "01/10/24", "10", "20", "REF1", "100"]

/-- Claim C4 counterexample: the merged row does not parse to the same record
as the row whose narration is a single token containing the original
comma-separated text — the merge joins the fragments with a space, so the
narrations differ (`"AB CD"` vs `"AB,CD"`). -/
theorem claim4_comma_merge_cex :
    parseRowA_BST 7 c4rowSplit = .tx ⟨10, "AB CD", "REF1", ⟨2024, 10, 1⟩, 100⟩
    ∧ parseRowA_BST 7 c4rowSingle = .tx ⟨10, "AB,CD", "REF1", ⟨2024, 10, 1⟩, 100⟩
    ∧ (⟨10, "AB CD", "REF1", ⟨2024, 10, 1⟩, 100⟩ : Transaction) ≠
        ⟨10, "AB,CD", "REF1", ⟨2024, 10, 1⟩, 100⟩ := by
  refine ⟨by with_unfolding_all rfl, by with_unfolding_all rfl, by decide⟩

/-- Claim C4 amended: a data row with more non-blank tokens than the header
width `N` is reconstructed as `[date, merged_narration, ...remaining]` where
the merged narration joins the individually trimmed surplus tokens starting
at index 1 with single spaces; the split row parses to the same record as the
row whose narration is that single space-joined token (not the original
comma-containing text). -/
theorem claim4_comma_merge
    (N : Nat) (d0 : String) (parts rest : List String)
    (hnb : ∀ p ∈ d0 :: (parts ++ rest), pyStrip p ≠ "")
    (hp2 : 2 ≤ parts.length)
    (hlen : (d0 :: (parts ++ rest)).length = N + (parts.length - 1)) :
    mergedRowA N (d0 :: (parts ++ rest)) = d0 :: mergeNarr parts :: rest
    ∧ (pyStrip (mergeNarr parts) ≠ "" →
        parseRowA_BST N (d0 :: (parts ++ rest)) =
          parseRowA_BST N (d0 :: mergeNarr parts :: rest)) := by
  have hfb : filterBlank (d0 :: (parts ++ rest)) = d0 :: (parts ++ rest) := by
    apply List.filter_eq_self.mpr
    intro a ha
    exact decide_eq_true (hnb a ha)
  have hlt : N < (d0 :: (parts ++ rest)).length := by rw [hlen]; omega
  have hfirst : mergedRowA N (d0 :: (parts ++ rest)) = d0 :: mergeNarr parts :: rest := by
    unfold mergedRowA
    rw [hfb]
    unfold mergeRowA
    rw [if_pos hlt]
    have hextra : (d0 :: (parts ++ rest)).length - N = parts.length - 1 := by
      rw [hlen]; omega
    dsimp only
    rw [hextra]
    have h1p : 1 + (parts.length - 1) = parts.length := by omega
    have h2p : 2 + (parts.length - 1) = parts.length + 1 := by omega
    rw [h1p, h2p]
    simp only [List.headD_cons, List.drop_succ_cons, List.drop_zero]
    rw [List.take_left, List.drop_left]
  refine ⟨hfirst, fun hmb => ?_⟩
  have hfb2 : filterBlank (d0 :: mergeNarr parts :: rest) = d0 :: mergeNarr parts :: rest := by
    apply List.filter_eq_self.mpr
    intro a ha
    simp only [List.mem_cons] at ha
    rcases ha with rfl | rfl | ha
    · exact decide_eq_true (hnb _ (by simp))
    · exact decide_eq_true hmb
    · exact decide_eq_true (hnb _ (by simp [ha]))
  have hm2 : mergedRowA N (d0 :: mergeNarr parts :: rest) = d0 :: mergeNarr parts :: rest := by
    unfold mergedRowA
    rw [hfb2]
    unfold mergeRowA
    rw [if_neg]
    intro hcon
    simp only [List.length_cons, List.length_append] at hlen hcon
    omega
  have hne1 : filterBlank (d0 :: (parts ++ rest)) ≠ [] := by rw [hfb]; simp
  have hne2 : filterBlank (d0 :: mergeNarr parts :: rest) ≠ [] := by rw [hfb2]; simp
  unfold parseRowA_BST
  rw [if_neg hne1, if_neg hne2, hfirst, hm2]

theorem claim4_comma_merge_witness :
    (mergedRowA 7 ("01/10/24" :: (["AB", "CD"] ++ ["01/10/24", "10", "20", "REF1", "100"])) =
      "01/10/24" :: mergeNarr ["AB", "CD"] :: ["01/10/24", "10", "20", "REF1", "100"])
    ∧ (pyStrip (mergeNarr ["AB", "CD"]) ≠ "" →
        parseRowA_BST 7 ("01/10/24" :: (["AB", "CD"] ++ ["01/10/24", "10", "20", "REF1", "100"])) =
          parseRowA_BST 7
            ("01/10/24" :: mergeNarr ["AB", "CD"] :: ["01/10/24", "10", "20", "REF1", "100"])) :=
  claim4_comma_merge 7 "01/10/24" ["AB", "CD"] ["01/10/24", "10", "20", "REF1", "100"]
    (by decide) (by decide) (by decide)

theorem parseRowsA_map_tx (pr : List String → RowResult) :
    ∀ rs ts, rs.map pr = ts.map RowResult.tx → parseRowsA pr rs = .ok (ts, 0) := by
  intro rs
  induction rs with
  | nil =>
    intro ts h
    cases ts with
    | nil => rfl
    | cons t ts => simp at h
  | cons r rs ih =>
    intro ts h
    cases ts with
    | nil => simp at h
    | cons t ts =>
      simp only [List.map_cons, List.cons.injEq] at h
      obtain ⟨h1, h2⟩ := h
      unfold parseRowsA
      rw [h1, ih ts h2]
      rfl

/-- The concrete format-A statement with one unparsable-date row. -/
def c5input : String :=
  "\nDate,Narration,Value Dat,Debit Amount,Credit Amount,Chq/Ref Number,Closing Balance\n01/10/24,GOOD,01/10/24,0,100,REF1,100\nBAD,GOOD,01/10/24,0,100,REF1,100\n02/10/24,GOOD,01/10/24,0,100,REF1,200"

/-- Claim C5 counterexample: a statement of three data rows in which exactly
one row has an unparsable date fragment makes the whole invocation raise
(`strptime` is not guarded), instead of yielding two transactions and one
warning. -/
theorem claim5_row_defect_cex :
    transform_hdfc_csv_to_transactions c5input = .error "ValueError: strptime" := by
  with_unfolding_all rfl

/-- Claim C5 amended: a short (or blank) row is recovered locally — a
statement whose rows are `rs1 ++ bad :: rs2`, with every row of `rs1`/`rs2`
producing a transaction and `bad` skipped, yields exactly the other rows'
transactions plus one warning; a format-B row with an empty amount field (and
a parsable date) is dropped silently; but an unparsable date fragment raises
and aborts the invocation (see the counterexample). -/
theorem claim5_row_defect :
    (∀ (N : Nat) (rs1 : List (List String)) (bad : List String) (rs2 : List (List String))
        (ts1 ts2 : List Transaction),
      rs1.map (parseRowA_BST N) = ts1.map RowResult.tx →
      rs2.map (parseRowA_BST N) = ts2.map RowResult.tx →
      parseRowA_BST N bad = .skip →
      parseRowsA (parseRowA_BST N) (rs1 ++ bad :: rs2) = .ok (ts1 ++ ts2, 1))
    ∧ (∀ (row : List String) (d : PyDate),
      9 ≤ row.length →
      row.getD 2 "" ≠ "" →
      parseDateCompact (pyReplace (pyStrip (row.getD 2 "")) "," "") = some d →
      pyStrip (row.getD 6 "") = "" →
      parseRowIcici row = .ok none) := by
  constructor
  · intro N rs1
    induction rs1 with
    | nil =>
      intro bad rs2 ts1 ts2 h1 h2 hb
      cases ts1 with
      | cons t ts => simp at h1
      | nil =>
        simp only [List.nil_append]
        unfold parseRowsA
        rw [hb, parseRowsA_map_tx _ rs2 ts2 h2]
        rfl
    | cons r rs ih =>
      intro bad rs2 ts1 ts2 h1 h2 hb
      cases ts1 with
      | nil => simp at h1
      | cons t ts =>
        simp only [List.map_cons, List.cons.injEq] at h1
        obtain ⟨ha, hrest⟩ := h1
        show parseRowsA (parseRowA_BST N) (r :: (rs ++ bad :: rs2)) = _
        unfold parseRowsA
        rw [ha, ih bad rs2 ts ts2 hrest h2 hb]
        rfl
  · intro row d h9 h2 hd h6
    unfold parseRowIcici
    rw [if_neg]
    · dsimp only
      rw [hd]
      dsimp only
      rw [if_pos h6]
    · simp only [not_or]
      refine ⟨?_, by omega, h2⟩
      intro hrow
      rw [hrow] at h9
      simp at h9

/-- A good format-A row for the C5 witness. -/
def c5good : List String := ["01/10/24", "GOOD", "01/10/24", "0", "100", "REF1", "100"]

/-- The transaction `c5good` produces. -/
def c5goodTx : Transaction := ⟨100, "GOOD", "REF1", ⟨2024, 10, 1⟩, 100⟩

/-- A format-B row with a parsable date and an empty amount field. -/
def c5brow : List String := ["x", "x", "24102024", "SHOP", "x", "x", "", "x", "ab"]

theorem claim5_row_defect_witness :
    parseRowsA (parseRowA_BST 7) ([c5good] ++ ["short", "row"] :: []) = .ok ([c5goodTx] ++ [], 1)
    ∧ parseRowIcici c5brow = .ok none :=
  ⟨(claim5_row_defect).1 7 [c5good] ["short", "row"] [] [c5goodTx] []
      (by with_unfolding_all rfl) (by decide) (by decide),
   (claim5_row_defect).2 c5brow ⟨2024, 10, 24⟩ (by decide) (by decide)
      (by with_unfolding_all rfl) (by decide)⟩

theorem findMarkerB_no_marker :
    ∀ rows, (∀ r ∈ rows, r = [] ∨
      (2 ≤ r.length ∧ pyStrip (r.getD 1 "") ≠ "Transaction Details")) →
    findMarkerB rows = .ok [] := by
  intro rows
  induction rows with
  | nil => intro h; rfl
  | cons r rs ih =>
    intro h
    have hr := h r (by simp)
    unfold findMarkerB
    rcases hr with rfl | ⟨h2, hm⟩
    · rw [if_pos rfl]
      exact ih (fun x hx => h x (by simp [hx]))
    · rw [if_neg (by intro h0; rw [h0] at h2; simp at h2), if_neg (by omega), if_neg hm]
      exact ih (fun x hx => h x (by simp [hx]))

theorem findMarkerB_marker_last :
    ∀ pre m, (∀ r ∈ pre, r = [] ∨
      (2 ≤ r.length ∧ pyStrip (r.getD 1 "") ≠ "Transaction Details")) →
    2 ≤ m.length → pyStrip (m.getD 1 "") = "Transaction Details" →
    findMarkerB (pre ++ [m]) = .ok [] := by
  intro pre
  induction pre with
  | nil =>
    intro m _ h2 hm
    simp only [List.nil_append]
    unfold findMarkerB
    rw [if_neg (by intro h0; rw [h0] at h2; simp at h2), if_neg (by omega), if_pos hm]
    rfl
  | cons r rs ih =>
    intro m h h2 hm
    have hr := h r (by simp)
    show findMarkerB (r :: (rs ++ [m])) = _
    unfold findMarkerB
    rcases hr with rfl | ⟨hl2, hne⟩
    · rw [if_pos rfl]
      exact ih m (fun x hx => h x (by simp [hx])) h2 hm
    · rw [if_neg (by intro h0; rw [h0] at hl2; simp at hl2), if_neg (by omega), if_neg hne]
      exact ih m (fun x hx => h x (by simp [hx])) h2 hm

/-- Claim C6 counterexample: an input containing a nonempty row with a single
field — which therefore has no second field equal to the marker — makes the
format-B parser raise `IndexError` (`row[1]`) instead of returning an empty
list. -/
theorem claim6_section_not_found_cex :
    transform_icici_credit_card_statement_csv_to_transactions "x" =
      .error "IndexError: list index out of range" := by
  decide

/-- Claim C6 amended: section-not-found is recovered for format B provided
every nonempty row has at least two fields (a nonempty row with fewer raises
`IndexError`): if no row's second field trimmed equals the marker, or the
input ends immediately after the marker row, the parser returns an empty
list; and a format-C table pair with no qualifying "Domestic Transactions"
table yields an empty list plus the diagnostic. -/
theorem claim6_section_not_found :
    (∀ contents : String,
      (∀ r ∈ (pyLines contents).map rowOfLine, r = [] ∨
        (2 ≤ r.length ∧ pyStrip (r.getD 1 "") ≠ "Transaction Details")) →
      transform_icici_credit_card_statement_csv_to_transactions contents = .ok [])
    ∧ (∀ (contents : String) (pre : List (List String)) (m : List String),
      (pyLines contents).map rowOfLine = pre ++ [m] →
      (∀ r ∈ pre, r = [] ∨
        (2 ≤ r.length ∧ pyStrip (r.getD 1 "") ≠ "Transaction Details")) →
      2 ≤ m.length → pyStrip (m.getD 1 "") = "Transaction Details" →
      transform_icici_credit_card_statement_csv_to_transactions contents = .ok [])
    ∧ (∀ tablesLattice tablesStream : List (List (List String)),
      (∀ t ∈ tablesLattice, qualifiesC t = false) →
      (∀ t ∈ tablesStream, qualifiesC t = false) →
      transform_hdfc_credit_card_statement_to_transactions tablesLattice tablesStream =
        .ok ([], true)) := by
  refine ⟨?_, ?_, ?_⟩
  · intro contents h
    unfold transform_icici_credit_card_statement_csv_to_transactions
    rw [findMarkerB_no_marker _ h]
    rfl
  · intro contents pre m hrows hpre h2 hm
    unfold transform_icici_credit_card_statement_csv_to_transactions
    rw [hrows, findMarkerB_marker_last pre m hpre h2 hm]
    rfl
  · intro tablesLattice tablesStream hL hS
    have h1 : tablesLattice.filter qualifiesC = [] := by
      apply List.filter_eq_nil.mpr
      intro a ha
      simp [hL a ha]
    have h2 : tablesStream.filter qualifiesC = [] := by
      apply List.filter_eq_nil.mpr
      intro a ha
      simp [hS a ha]
    unfold transform_hdfc_credit_card_statement_to_transactions
    rw [h1, h2]
    rfl

theorem claim6_section_not_found_witness :
    transform_icici_credit_card_statement_csv_to_transactions "a,b\nc,d" = .ok []
    ∧ transform_icici_credit_card_statement_csv_to_transactions "a,b\nx,Transaction Details" =
        .ok []
    ∧ transform_hdfc_credit_card_statement_to_transactions [[["Summary"]]] [] = .ok ([], true) :=
  ⟨(claim6_section_not_found).1 "a,b\nc,d" (by decide),
   (claim6_section_not_found).2.1 "a,b\nx,Transaction Details" [["a", "b"]]
      ["x", "Transaction Details"] (by decide) (by decide) (by decide) (by decide),
   (claim6_section_not_found).2.2 [[["Summary"]]] [] (by decide) (by decide)⟩

theorem ite_index_map (l : List String) (i : Nat) :
    (if i < l.length then some (pyStrip (l.getD i "")) else none) =
      (l.get? i).map pyStrip := by
  by_cases h : i < l.length
  · rw [if_pos h, List.get?_eq_get h]
    simp [List.getD_eq_getElem?_getD, List.getElem?_eq_getElem h, List.get_eq_getElem]
  · rw [if_neg h, List.get?_eq_none.mpr (Nat.le_of_not_lt h)]
    rfl

/-- Claim C7: the format-A payee heuristic is total and never raises: a
narration beginning case-insensitively with `"upi-"` yields the trimmed
second hyphen-delimited segment, one beginning with `"neft"` or `"rtgs"`
yields the trimmed third segment, a segment shortfall or non-matching
narration (including the empty string) yields no payee, and the spec's four
boundary examples behave as stated. -/
theorem claim7_payee_heuristic :
    (∀ n, pyStartsWith (pyLower n) "upi-" = true →
      extract_payee_from_hdfc_bank_statement_narration n =
        ((pySplit '-' n).get? 1).map pyStrip)
    ∧ (∀ n, pyStartsWith (pyLower n) "upi-" = false →
        pyStartsWith (pyLower n) "neft" = true ∨ pyStartsWith (pyLower n) "rtgs" = true →
        extract_payee_from_hdfc_bank_statement_narration n =
          ((pySplit '-' n).get? 2).map pyStrip)
    ∧ (∀ n, pyStartsWith (pyLower n) "upi-" = false →
        pyStartsWith (pyLower n) "neft" = false → pyStartsWith (pyLower n) "rtgs" = false →
        extract_payee_from_hdfc_bank_statement_narration n = none)
    ∧ extract_payee_from_hdfc_bank_statement_narration
        "UPI-ZOMATO LTD-ZOMATO-ORDER@PTYBL-..." = some "ZOMATO LTD"
    ∧ extract_payee_from_hdfc_bank_statement_narration
        "NEFT DR-PUNB0498700-random name-NETBANK" = some "random name"
    ∧ extract_payee_from_hdfc_bank_statement_narration "ATM Withdrawal" = none
    ∧ extract_payee_from_hdfc_bank_statement_narration "" = none := by
  refine ⟨?_, ?_, ?_, by decide, by decide, by decide, by decide⟩
  · intro n h
    unfold extract_payee_from_hdfc_bank_statement_narration
    dsimp only
    rw [if_pos h]
    exact ite_index_map _ 1
  · intro n h1 hor
    unfold extract_payee_from_hdfc_bank_statement_narration
    dsimp only
    have hb : (pyStartsWith (pyLower n) "neft" || pyStartsWith (pyLower n) "rtgs") = true := by
      rcases hor with h | h <;> simp [h]
    rw [if_neg (by simp [h1]), if_pos hb]
    exact ite_index_map _ 2
  · intro n h1 h2 h3
    unfold extract_payee_from_hdfc_bank_statement_narration
    dsimp only
    simp [h1, h2, h3]

theorem claim7_payee_heuristic_witness :
    extract_payee_from_hdfc_bank_statement_narration "upi-a- b -c" =
      ((pySplit '-' "upi-a- b -c").get? 1).map pyStrip
    ∧ extract_payee_from_hdfc_bank_statement_narration "RTGS-x-payee x" =
        ((pySplit '-' "RTGS-x-payee x").get? 2).map pyStrip
    ∧ extract_payee_from_hdfc_bank_statement_narration "cash" = none :=
  ⟨(claim7_payee_heuristic).1 "upi-a- b -c" (by decide),
   (claim7_payee_heuristic).2.1 "RTGS-x-payee x" (by decide) (Or.inr (by decide)),
   (claim7_payee_heuristic).2.2.1 "cash" (by decide) (by decide) (by decide)⟩

/-- A five-cell format-C row whose fourth cell (`"20"`) differs from its last
cell (`"999"`). -/
def c8row : List String := ["01/10/2024", "SHOP", "10", "20", "999"]

/-- Claim C8 counterexample: on a five-cell row the amount comes from the
fourth cell (index 3), not the last cell — the parsed amount is `-20`, while
taking the last cell would give `-999`. -/
theorem claim8_amount_cell_cex :
    (parseRowC c8row).map (Option.map Transaction.amount) = .ok (some (-20))
    ∧ ¬((-20 : ℚ) = -(999 : ℚ)) := by
  refine ⟨by with_unfolding_all rfl, by norm_num⟩

/-- Claim C8 amended: for every format-C data row with at least three cells,
the amount is taken from the fourth cell (index 3) when more than three cells
are present and from the third cell otherwise; thousands separators and the
credit marker are stripped from it, and absence of the credit marker negates
the parsed magnitude while its presence leaves it positive. -/
theorem claim8_amount_cell
    (row : List String) (m : ℚ) (d : PyDate)
    (h3 : 3 ≤ row.length)
    (hd : parseDateSlash 4 ((pySplit ' ' (pyStrip (row.getD 0 ""))).headD "") = some d)
    (hf : parseFloat (pyStrip (pyReplace (amountCellC row) "Cr" "")) = some m) :
    (parseRowC row).map (Option.map Transaction.amount) =
      .ok (some (if pyContains (amountCellC row) "Cr" then m else -m)) := by
  unfold parseRowC
  rw [if_neg (by omega)]
  dsimp only
  rw [hd]
  dsimp only
  rw [hf]
  rfl

/-- A four-cell format-C row with a thousands separator and a credit marker. -/
def c8crRow : List String := ["01/10/2024 12:00", "SHOP", "5", "1,234 Cr"]

theorem claim8_amount_cell_witness :
    (parseRowC c8crRow).map (Option.map Transaction.amount) =
      .ok (some (if pyContains (amountCellC c8crRow) "Cr" then (1234 : ℚ) else -1234)) :=
  claim8_amount_cell c8crRow 1234 ⟨2024, 10, 1⟩ (by decide) (by decide)
    (by with_unfolding_all rfl)

/-- Claim C9: the format-B parser copies the reference id verbatim with no
integrity check — every format-B transaction's reference id is exactly the
trimmed ninth field, even when its length is 3 or fewer — while the
`length > 3` check is enforced by the format-A parser, whose every
transaction has a reference id longer than 3 characters. -/
theorem claim9_ref_id_verbatim :
    (∀ (row : List String) (t : Transaction),
      parseRowIcici row = .ok (some t) → t.ref_id = pyStrip (row.getD 8 ""))
    ∧ (∀ (N : Nat) (row : List String) (t : Transaction),
      parseRowA_BST N row = .tx t → 3 < t.ref_id.length) := by
  constructor
  · intro row t h
    unfold parseRowIcici at h
    split at h
    · simp at h
    · dsimp only at h
      split at h
      · simp at h
      · split at h
        · simp at h
        · split at h
          · simp at h
          · simp only [Except.ok.injEq, Option.some.injEq] at h
            rw [← h]
  · intro N row t h
    unfold parseRowA_BST at h
    split at h
    · exact RowResult.noConfusion h
    · split at h
      · split at h
        · exact RowResult.noConfusion h
        · split at h
          · dsimp only at h
            split at h <;> split at h <;>
              first
                | exact RowResult.noConfusion h
                | (split at h <;>
                    first
                      | exact RowResult.noConfusion h
                      | (cases h; dsimp only; omega))
          · exact RowResult.noConfusion h
      · split at h
        · exact RowResult.noConfusion h
        · exact RowResult.noConfusion h

/-- A format-B row whose trimmed ninth field is the two-character id `"ab"`. -/
def c9brow : List String := ["x", "x", "24102024", "SHOP", "x", "x", "100 Dr.", "x", " ab "]

theorem claim9_ref_id_verbatim_witness :
    (⟨-100, "SHOP", "ab", ⟨2024, 10, 24⟩, 0⟩ : Transaction).ref_id =
      pyStrip (c9brow.getD 8 "")
    ∧ 3 < (⟨50, "SHOP", "ABCD", ⟨2024, 10, 1⟩, 500⟩ : Transaction).ref_id.length :=
  ⟨(claim9_ref_id_verbatim).1 c9brow ⟨-100, "SHOP", "ab", ⟨2024, 10, 24⟩, 0⟩
      (by with_unfolding_all rfl),
   (claim9_ref_id_verbatim).2 7 c3row ⟨50, "SHOP", "ABCD", ⟨2024, 10, 1⟩, 500⟩
      (by with_unfolding_all rfl)⟩

/-- Claim C10: for every input with fewer than two lines (in particular the
empty string), the `bank_statement_transformer` format-A parser raises
(`StopIteration`) instead of returning a transaction list, because it
unconditionally consumes two leading lines before reading any data row. -/
theorem claim10_short_input_raises (s : String)
    (h : (pyLines s).length < 2) :
    isErr (transform_hdfc_csv_to_transactions s) = true := by
  unfold transform_hdfc_csv_to_transactions
  cases hl : pyLines s with
  | nil => rfl
  | cons a l =>
    cases l with
    | nil => rfl
    | cons b l2 =>
      rw [hl] at h
      simp at h
      omega

theorem claim10_short_input_raises_witness :
    isErr (transform_hdfc_csv_to_transactions "") = true :=
  claim10_short_input_raises "" (by decide)
